import Mathlib

/-!
Verification development for a small Lisp interpreter (src/lisp.py).

The interpreter is shallowly embedded: the tokenizer, the recursive-descent
parser and the tree-walking evaluator are translated into executable Lean
functions.  Python machine-level behaviour that the source delegates to the
host (acceptance of numeric literals by int() and float(), dict key
equality) is modelled by explicit Lean definitions, documented at each
definition.  Floating-point values never influence any property proved
here, so a float value is represented by its source literal and float
arithmetic is mapped to a distinguished unmodelled error.
-/

set_option autoImplicit false

namespace Lisp

/-- Whitespace characters stripped by the Python int() and float()
conversions before parsing the literal (ASCII subset). -/
def isPySpace (c : Char) : Bool :=
  c = ' ' || c = '\t' || c = '\n' || c = '\r' || c = '\x0b' || c = '\x0c'

/-- Strip leading and trailing whitespace, as Python int()/float() do. -/
def pyStrip (cs : List Char) : List Char :=
  ((cs.dropWhile isPySpace).reverse.dropWhile isPySpace).reverse

/-- After an initial digit: further digits, with single underscores allowed
only between digits (the CPython digit-group rule). -/
def pyDigitsRest : List Char → Bool
  | [] => true
  | '_' :: rest =>
    match rest with
    | c :: rest2 => c.isDigit && pyDigitsRest rest2
    | [] => false
  | c :: rest => c.isDigit && pyDigitsRest rest

/-- A nonempty run of decimal digits with single underscores between digits,
the digit-part grammar shared by CPython int() and float() literals. -/
def pyIntDigits : List Char → Bool
  | [] => false
  | c :: rest => c.isDigit && pyDigitsRest rest

/-- Models acceptance by the Python builtin int(): optional surrounding
whitespace, an optional sign, then a digit part.  Non-ASCII digits are
outside the model. -/
def pyIntAccepts (s : String) : Bool :=
  let cs := pyStrip s.data
  match cs with
  | '+' :: rest => pyIntDigits rest
  | '-' :: rest => pyIntDigits rest
  | _ => pyIntDigits cs

/-- Numeric value of a digit part, underscores skipped. -/
def digitsVal (cs : List Char) : Nat :=
  (cs.filter (fun c => c ≠ '_')).foldl (fun acc c => acc * 10 + (c.toNat - 48)) 0

/-- Models the value computed by the Python builtin int() on an accepted
token. -/
def pyIntVal (s : String) : Int :=
  let cs := pyStrip s.data
  match cs with
  | '+' :: rest => Int.ofNat (digitsVal rest)
  | '-' :: rest => - Int.ofNat (digitsVal rest)
  | _ => Int.ofNat (digitsVal cs)

/-- Mantissa of a CPython float literal: digits, or digits around a single
dot with at least one digit present. -/
def pyMantissa (cs : List Char) : Bool :=
  let before := cs.takeWhile (fun c => c ≠ '.')
  match cs.dropWhile (fun c => c ≠ '.') with
  | [] => pyIntDigits before
  | _ :: r =>
    r.all (fun c => c ≠ '.') &&
    (before.isEmpty || pyIntDigits before) &&
    (r.isEmpty || pyIntDigits r) &&
    !(before.isEmpty && r.isEmpty)

/-- Decimal float literal: mantissa with an optional exponent introduced by
the letter e in either case with an optional sign. -/
def pyFloatNumber (cs : List Char) : Bool :=
  let m := cs.takeWhile (fun c => c ≠ 'e' && c ≠ 'E')
  match cs.dropWhile (fun c => c ≠ 'e' && c ≠ 'E') with
  | [] => pyMantissa m
  | _ :: e =>
    let e2 := match e with
      | '+' :: r => r
      | '-' :: r => r
      | _ => e
    pyMantissa m && pyIntDigits e2

/-- Models acceptance by the Python builtin float(): optional whitespace and
sign, then inf, infinity or nan in any letter case, or a decimal float
literal. -/
def pyFloatAccepts (s : String) : Bool :=
  let cs := pyStrip s.data
  let cs2 := match cs with
    | '+' :: r => r
    | '-' :: r => r
    | _ => cs
  let lower := cs2.map Char.toLower
  if lower = "inf".data || lower = "infinity".data || lower = "nan".data then true
  else pyFloatNumber cs2

/-- Source is_integer: whether the Python int() conversion succeeds. -/
def is_integer (s : String) : Bool := pyIntAccepts s

/-- Source is_float: whether the Python float() conversion succeeds. -/
def is_float (s : String) : Bool := pyFloatAccepts s

/-- Source is_string: length at least 2 with a single quote at both ends. -/
def is_string (s : String) : Bool :=
  decide (s.data.length ≥ 2) &&
  (match s.data with
   | c :: _ => c = '\''
   | [] => false) &&
  (match s.data.getLast? with
   | some c => c = '\''
   | _ => false)

/-- The token slice with first and last characters removed, the source
token with index 1 to -1 used to strip string quotes. -/
def stripQuotes (s : String) : String :=
  String.mk ((s.data.drop 1).dropLast)

/-- The lookahead test of the tokenizer: the next character is a
parenthesis or whitespace. -/
def lookaheadFlush : List Char → Bool
  | [] => false
  | c :: _ => c = '(' || c = ')' || c = ' ' || c = '\n' || c = '\t'

/-- The tokenizer loop of source tokenize, one step per character.  The
Boolean argument is the in-string flag, the String argument the pending
word; the final flush of a nonempty pending word is the empty-input case. -/
def tokenizeAux : List Char → Bool → String → List String
  | [], _, cw => if cw ≠ "" then [cw] else []
  | c :: rest, inStr, cw =>
    if c = '\'' then
      if inStr = false then tokenizeAux rest true (cw.push c)
      else (cw.push c) :: tokenizeAux rest false ""
    else if inStr = true then
      tokenizeAux rest inStr (cw.push c)
    else if c = '\t' || c = '\n' || c = ' ' then
      if cw ≠ "" then cw :: tokenizeAux rest inStr "" else tokenizeAux rest inStr cw
    else if c = '(' || c = ')' then
      if cw ≠ "" then cw :: String.singleton c :: tokenizeAux rest inStr ""
      else String.singleton c :: tokenizeAux rest inStr ""
    else
      if lookaheadFlush rest && !inStr then (cw.push c) :: tokenizeAux rest inStr ""
      else tokenizeAux rest inStr (cw.push c)

/-- Source tokenize: scan the characters once, starting outside a string
with an empty pending word. -/
def tokenize (s : String) : List String :=
  tokenizeAux s.data false ""

/-- The builtin table entries of the source base environment. -/
inductive BuiltinFn where
  | add | sub | mul | div
  | gt | ge | lt | le | eqFn | neFn
  | isNull | printFn | listFn
  | car | cdr | cons | lengthFn | appendFn
deriving DecidableEq, Repr

/-- Expression nodes and runtime values.  The source uses one dynamic value
space for both: parser output (int, float, String node, Symbol node, nested
list) and evaluation results (Python int, float, str, bool, None, list,
Lambda, builtin function object) flow through the same evaluator, and quote
leaks parser nodes into the value space.  A float is represented by its
source literal, since no property proved here depends on float arithmetic. -/
inductive Val where
  | int (n : Int)
  | float (lit : String)
  | str (s : String)
  | strNode (s : String)
  | sym (s : String)
  | list (xs : List Val)
  | lam (params : Val) (code : Val)
  | bool (b : Bool)
  | none
  | builtin (b : BuiltinFn)
deriving Repr

/-- Evaluation outcomes other than a value.  fail is the source fail()
(message then process exit); hostErr is a Python exception raised by host
operations (TypeError, AttributeError and similar); unmodelled marks spots
where the host would produce a floating-point result or object-identity
answer that this embedding deliberately does not represent; outOfFuel is
the artificial bound making the recursive evaluator total. -/
inductive EvalErr where
  | fail (msg : String)
  | hostErr (msg : String)
  | unmodelled (what : String)
  | outOfFuel
deriving DecidableEq, Repr

mutual

/-- Structural equality on values, modelling equality of dict keys.  For
Symbol and String objects and Lambda objects Python compares by identity;
such keys arise only from non-Symbol lambda parameter lists, which no
property here exercises, and structural equality stands in for identity
there. -/
def valBeq : Val → Val → Bool
  | .int a, .int b => a == b
  | .float a, .float b => a == b
  | .str a, .str b => a == b
  | .strNode a, .strNode b => a == b
  | .sym a, .sym b => a == b
  | .list xs, .list ys => valBeqList xs ys
  | .lam p c, .lam q d => valBeq p q && valBeq c d
  | .bool a, .bool b => a == b
  | .none, .none => true
  | .builtin a, .builtin b => a == b
  | _, _ => false

/-- Elementwise structural equality of value lists. -/
def valBeqList : List Val → List Val → Bool
  | [], [] => true
  | x :: xs, y :: ys => valBeq x y && valBeqList xs ys
  | _, _ => false

end

/-- Key of an environment entry.  Lookups of Symbol expressions and
bindings made by define always use string keys; a raw key records the
Python behaviour of using a non-Symbol lambda parameter itself as the
dict key, a binding that symbol resolution can never reach. -/
inductive EKey where
  | name (s : String)
  | raw (v : Val)
deriving Repr

/-- Key equality for environment entries, the dict key comparison. -/
def keyMatch : EKey → EKey → Bool
  | .name a, .name b => a == b
  | .raw a, .raw b => valBeq a b
  | _, _ => false

/-- An environment: the Python dict from names to values, as an
association list with unique keys kept in insertion order. -/
def Env : Type := List (EKey × Val)

/-- Dict lookup. -/
def envGet : Env → EKey → Option Val
  | [], _ => Option.none
  | (k, v) :: rest, key => if keyMatch k key then some v else envGet rest key

/-- Dict assignment: overwrite an existing key in place, otherwise append
a new entry, as Python dicts do. -/
def envSet : Env → EKey → Val → Env
  | [], key, v => [(key, v)]
  | (k, w) :: rest, key, v =>
    if keyMatch k key then (k, v) :: rest else (k, w) :: envSet rest key v

/-- Sequencing of fallible computations, the propagation of a Python
exception or of a fail() exit past the rest of the evaluation. -/
def bindE {α β : Type} : Except EvalErr α → (α → Except EvalErr β) → Except EvalErr β
  | .error e, _ => .error e
  | .ok a, f => f a

/-- A value as a Python int operand: int directly, bool as 0 or 1 (bool is
an int subclass in Python). -/
def asIntNum : Val → Option Int
  | .int n => some n
  | .bool b => some (if b then 1 else 0)
  | _ => Option.none

/-- Whether the value is a float. -/
def isFloatV : Val → Bool
  | .float _ => true
  | _ => false

/-- The operator.add builtin on the value kinds the claims can reach:
int-like addition, string and list concatenation; any float operand is
host floating point, outside the model. -/
def pyAdd (a b : Val) : Except EvalErr Val :=
  match asIntNum a, asIntNum b with
  | some x, some y => .ok (.int (x + y))
  | _, _ =>
    if isFloatV a || isFloatV b then .error (.unmodelled "float arithmetic")
    else match a, b with
      | .str s, .str t => .ok (.str (s ++ t))
      | .list xs, .list ys => .ok (.list (xs ++ ys))
      | _, _ => .error (.hostErr "TypeError: unsupported operand types for +")

/-- The operator.sub builtin. -/
def pySub (a b : Val) : Except EvalErr Val :=
  match asIntNum a, asIntNum b with
  | some x, some y => .ok (.int (x - y))
  | _, _ =>
    if isFloatV a || isFloatV b then .error (.unmodelled "float arithmetic")
    else .error (.hostErr "TypeError: unsupported operand types for -")

/-- Sequence replication for the operator.mul builtin, empty on a
non-positive count as in Python. -/
def replicateCount (n : Int) : Nat := n.toNat

/-- The operator.mul builtin: int-like product, string or list
replication by an int; float operands are outside the model. -/
def pyMul (a b : Val) : Except EvalErr Val :=
  match asIntNum a, asIntNum b with
  | some x, some y => .ok (.int (x * y))
  | _, _ =>
    if isFloatV a || isFloatV b then .error (.unmodelled "float arithmetic")
    else match a, b with
      | .str s, v =>
        match asIntNum v with
        | some n => .ok (.str (String.join (List.replicate (replicateCount n) s)))
        | _ => .error (.hostErr "TypeError: unsupported operand types for *")
      | v, .str s =>
        match asIntNum v with
        | some n => .ok (.str (String.join (List.replicate (replicateCount n) s)))
        | _ => .error (.hostErr "TypeError: unsupported operand types for *")
      | .list xs, v =>
        match asIntNum v with
        | some n => .ok (.list (List.flatten (List.replicate (replicateCount n) xs)))
        | _ => .error (.hostErr "TypeError: unsupported operand types for *")
      | v, .list xs =>
        match asIntNum v with
        | some n => .ok (.list (List.flatten (List.replicate (replicateCount n) xs)))
        | _ => .error (.hostErr "TypeError: unsupported operand types for *")
      | _, _ => .error (.hostErr "TypeError: unsupported operand types for *")

/-- The operator.truediv builtin: Python true division always produces a
host float, which this embedding does not represent; division by an exact
int zero raises ZeroDivisionError first. -/
def pyDiv (a b : Val) : Except EvalErr Val :=
  match asIntNum b with
  | some y =>
    if y = 0 then .error (.hostErr "ZeroDivisionError: division by zero")
    else
      match asIntNum a with
      | some _ => .error (.unmodelled "true division yields a host float")
      | _ =>
        if isFloatV a then .error (.unmodelled "float arithmetic")
        else .error (.hostErr "TypeError: unsupported operand types for /")
  | _ =>
    if isFloatV a || isFloatV b then .error (.unmodelled "float arithmetic")
    else .error (.hostErr "TypeError: unsupported operand types for /")

/-- A comparison builtin (gt, ge, lt, le) applied through the given order
on integers and the corresponding lexicographic order on strings; floats
and sequence comparison are outside the model, mixed types raise
TypeError as in Python. -/
def pyCompare (intOp : Int → Int → Bool) (strOp : String → String → Bool)
    (a b : Val) : Except EvalErr Val :=
  match asIntNum a, asIntNum b with
  | some x, some y => .ok (.bool (intOp x y))
  | _, _ =>
    if isFloatV a || isFloatV b then .error (.unmodelled "float comparison")
    else match a, b with
      | .str s, .str t => .ok (.bool (strOp s t))
      | .list _, .list _ => .error (.unmodelled "sequence comparison")
      | _, _ => .error (.hostErr "TypeError: comparison not supported between operand types")

mutual

/-- The Python equality used by the operator.eq builtin: numeric equality
across int and bool, structural equality on strings, lists, None and the
builtin function objects; object-identity equality on Symbol, String and
Lambda objects and float equality are outside the model; values of
different kinds compare unequal. -/
def pyEq : Val → Val → Except EvalErr Bool
  | .float _, _ => .error (.unmodelled "float equality")
  | _, .float _ => .error (.unmodelled "float equality")
  | .int a, .int b => .ok (a == b)
  | .int a, .bool b => .ok (a == (if b then 1 else 0))
  | .bool a, .int b => .ok ((if a then (1 : Int) else 0) == b)
  | .bool a, .bool b => .ok (a == b)
  | .str a, .str b => .ok (a == b)
  | .none, .none => .ok true
  | .list xs, .list ys => pyEqList xs ys
  | .builtin a, .builtin b => .ok (a == b)
  | .sym _, .sym _ => .error (.unmodelled "object identity equality")
  | .strNode _, .strNode _ => .error (.unmodelled "object identity equality")
  | .lam _ _, .lam _ _ => .error (.unmodelled "object identity equality")
  | _, _ => .ok false

/-- Elementwise Python equality of lists, false on a length mismatch. -/
def pyEqList : List Val → List Val → Except EvalErr Bool
  | [], [] => .ok true
  | x :: xs, y :: ys =>
    bindE (pyEq x y) (fun h =>
      if h then pyEqList xs ys else .ok false)
  | _, _ => .ok false

end

/-- The car builtin of the source: first element if the argument is truthy
else None; Python truthiness and subscripting decide the behaviour on
non-list arguments. -/
def pyCar : Val → Except EvalErr Val
  | .list [] => .ok .none
  | .list (x :: _) => .ok x
  | .str s =>
    match s.data with
    | [] => .ok .none
    | c :: _ => .ok (.str (String.singleton c))
  | .none => .ok .none
  | .int n => if n = 0 then .ok .none else .error (.hostErr "TypeError: object is not subscriptable")
  | .bool b => if b = false then .ok .none else .error (.hostErr "TypeError: object is not subscriptable")
  | .float _ => .error (.unmodelled "float truthiness")
  | _ => .error (.hostErr "TypeError: object is not subscriptable")

/-- The cdr builtin of the source: the slice from index 1 when the length
exceeds 1, else the empty list; len() decides the behaviour on non-list
arguments. -/
def pyCdr : Val → Except EvalErr Val
  | .list xs => if xs.length > 1 then .ok (.list (xs.drop 1)) else .ok (.list [])
  | .str s => if s.data.length > 1 then .ok (.str (String.mk (s.data.drop 1))) else .ok (.list [])
  | _ => .error (.hostErr "TypeError: object has no len()")

/-- One argument of the append builtin as an iterable of values: the
elements of a list, or the characters of a string as one-character
strings; anything else raises TypeError. -/
def pyIterable : Val → Except EvalErr (List Val)
  | .list xs => .ok xs
  | .str s => .ok (s.data.map (fun c => Val.str (String.singleton c)))
  | _ => .error (.hostErr "TypeError: object is not iterable")

/-- The append builtin of the source: concatenation of the elements of all
arguments via a comprehension over each. -/
def pyAppend : List Val → Except EvalErr (List Val)
  | [] => .ok []
  | v :: rest =>
    bindE (pyIterable v) (fun xs =>
      bindE (pyAppend rest) (fun ys => .ok (xs ++ ys)))

/-- Application of a builtin table entry to the evaluated argument values.
A wrong argument count is a host TypeError, as for any Python call. -/
def applyBuiltin : BuiltinFn → List Val → Except EvalErr Val
  | .add, [a, b] => pyAdd a b
  | .sub, [a, b] => pySub a b
  | .mul, [a, b] => pyMul a b
  | .div, [a, b] => pyDiv a b
  | .gt, [a, b] => pyCompare (fun x y => y < x) (fun x y => y < x) a b
  | .ge, [a, b] => pyCompare (fun x y => y ≤ x) (fun x y => y ≤ x) a b
  | .lt, [a, b] => pyCompare (fun x y => x < y) (fun x y => x < y) a b
  | .le, [a, b] => pyCompare (fun x y => x ≤ y) (fun x y => x ≤ y) a b
  | .eqFn, [a, b] => bindE (pyEq a b) (fun h => .ok (.bool h))
  | .neFn, [a, b] => bindE (pyEq a b) (fun h => .ok (.bool (!h)))
  | .isNull, [x] =>
    .ok (.bool (match x with
      | .none => true
      | _ => false))
  | .printFn, [_] => .ok .none
  | .listFn, args => .ok (.list args)
  | .car, [l] => pyCar l
  | .cdr, [l] => pyCdr l
  | .cons, [x, l] =>
    .ok (.list (x :: (match l with
      | .list ys => ys
      | v => [v])))
  | .lengthFn, [.list xs] => .ok (.int xs.length)
  | .lengthFn, [.str s] => .ok (.int s.data.length)
  | .lengthFn, [_] => .error (.hostErr "TypeError: object has no len()")
  | .appendFn, args => bindE (pyAppend args) (fun xs => .ok (.list xs))
  | _, _ => .error (.hostErr "TypeError: wrong number of arguments")

/-- The source base_environment table, in source order.  nil is bound to
None directly; every other entry is a builtin function object.  The print
builtin returns None; its write to standard output is outside the model. -/
def base_environment : Env :=
  [(.name "+", .builtin .add),
   (.name "-", .builtin .sub),
   (.name "*", .builtin .mul),
   (.name "/", .builtin .div),
   (.name ">", .builtin .gt),
   (.name ">=", .builtin .ge),
   (.name "<", .builtin .lt),
   (.name "<=", .builtin .le),
   (.name "=", .builtin .eqFn),
   (.name "!=", .builtin .neFn),
   (.name "nil", .none),
   (.name "null?", .builtin .isNull),
   (.name "print", .builtin .printFn),
   (.name "list", .builtin .listFn),
   (.name "car", .builtin .car),
   (.name "cdr", .builtin .cdr),
   (.name "cons", .builtin .cons),
   (.name "length", .builtin .lengthFn),
   (.name "append", .builtin .appendFn)]

mutual

/-- Display form of a value, used only inside the message of the
non-callable application failure.  It follows the source __repr__ methods;
host formatting details (float rendering, quoting inside containers, the
rendering of builtin function objects) are approximated, and no property
proved here depends on this rendering. -/
def pyRepr : Val → String
  | .int n => toString n
  | .float lit => lit
  | .str s => s
  | .strNode s => s
  | .sym s => s
  | .list xs => "[" ++ String.intercalate ", " (pyReprList xs) ++ "]"
  | .lam p c => "(lambda (" ++ pyRepr p ++ ") (" ++ pyRepr c ++ "))"
  | .bool b => if b then "True" else "False"
  | .none => "None"
  | .builtin _ => "<built-in function>"

/-- Display forms of the elements of a list value. -/
def pyReprList : List Val → List String
  | [] => []
  | x :: xs => pyRepr x :: pyReprList xs

end

/-- The Python attribute access expr.value used by define on the name
position: Symbol and String nodes carry a value attribute, every other
node raises AttributeError. -/
def pyValueAttr : Val → Except EvalErr String
  | .sym s => .ok s
  | .strNode s => .ok s
  | _ => .error (.hostErr "AttributeError: object has no attribute value")

/-- The parameter-binding loop of source apply_fn: each parameter that is a
Symbol binds its name; a non-Symbol parameter is used as the dict key
itself (a binding symbol lookup can never see); a list parameter is an
unhashable dict key and raises TypeError.  The loop runs over equal-length
lists, the arity check having already passed. -/
def bindParams : List Val → List Val → Env → Except EvalErr Env
  | [], _, env => .ok env
  | _ :: _, [], env => .ok env
  | p :: ps, a :: args, env =>
    match p with
    | .sym s => bindParams ps args (envSet env (.name s) a)
    | .list _ => .error (.hostErr "TypeError: unhashable type: list")
    | _ => bindParams ps args (envSet env (.raw p) a)

/-- Source apply_fn.  The evaluator is passed in as ev, the way apply_fn
calls back into eval_expr.  A builtin function object is called directly.
For a Lambda, new_env is a copy of the calling environment (dict(environment)
in the source; plain value passing here), the arity is checked against the
parameter list, parameters are bound, and the body is evaluated in the new
environment; only the resulting value is returned, so bindings made during
the call never reach the caller.  A Lambda whose parameter holder is not a
list raises TypeError at the len() call, and a non-callable raises the
source fail. -/
def apply_fn (ev : Val → Env → Except EvalErr (Val × Env))
    (fn : Val) (args : List Val) (env : Env) : Except EvalErr Val :=
  match fn with
  | .builtin b => applyBuiltin b args
  | .lam params code =>
    match params with
    | .list ps =>
      if args.length ≠ ps.length then
        .error (.fail ("Mismatched number of arguments to lambda: expected "
          ++ toString ps.length ++ ", got " ++ toString args.length))
      else
        bindE (bindParams ps args env) (fun benv =>
          bindE (ev code benv) (fun r => .ok r.1))
    | _ => .error (.hostErr "TypeError: object has no len()")
  | v => .error (.fail ("Cannot apply non-function: " ++ pyRepr v))

/-- Left-to-right evaluation of the argument expressions of a call, the
list comprehension of the source; the environment object is shared, so
effects of earlier arguments are visible to later ones. -/
def evalArgs (ev : Val → Env → Except EvalErr (Val × Env)) :
    List Val → Env → Except EvalErr (List Val × Env)
  | [], env => .ok ([], env)
  | e :: rest, env =>
    bindE (ev e env) (fun r =>
      bindE (evalArgs ev rest r.2) (fun rs => .ok (r.1 :: rs.1, rs.2)))

/-- The begin loop of the source: evaluate each sub-expression in the
current environment, keep the last result, None when there are none. -/
def evalBegin (ev : Val → Env → Except EvalErr (Val × Env)) :
    List Val → Env → Except EvalErr (Val × Env)
  | [], env => .ok (.none, env)
  | [e], env => ev e env
  | e :: rest, env => bindE (ev e env) (fun r => evalBegin ev rest r.2)

/-- The exact Boolean False test of the source if form, the Python
identity comparison with False: only the Boolean false value passes. -/
def isFalseBool : Val → Bool
  | .bool false => true
  | _ => false

/-- One unfolding of source eval_expr, with ev standing for the recursive
calls.  The environment is threaded and returned, modelling in-place
mutation of the Python dict; apply_fn drops the environment produced by
the body, modelling the copy.  Case order follows the source: atomic
values evaluate to themselves (bool is an int instance in Python, so it
self-evaluates through the int case), a String node yields its character
content, a Symbol is looked up or fails, the empty list yields an empty
sequence, a special-form keyword in head position is dispatched before
any function-call resolution, and anything else is a call; values with no
matching case (Lambda, builtin, None) fall through to the final return
of the expression itself. -/
def evalStep (ev : Val → Env → Except EvalErr (Val × Env))
    (expr : Val) (env : Env) : Except EvalErr (Val × Env) :=
  match expr with
  | .int _ => .ok (expr, env)
  | .float _ => .ok (expr, env)
  | .bool _ => .ok (expr, env)
  | .str _ => .ok (expr, env)
  | .strNode s => .ok (.str s, env)
  | .sym s =>
    match envGet env (.name s) with
    | Option.none => .error (.fail ("Couldn't find symbol " ++ s))
    | some v => .ok (v, env)
  | .list [] => .ok (.list [], env)
  | .list (h :: t) =>
    match h with
    | .sym "lambda" =>
      match t with
      | p :: b :: _ => .ok (.lam p b, env)
      | _ => .error (.fail "Lambda requires arguments and body")
    | .sym "if" =>
      match t with
      | c :: th :: restAfter =>
        let elseClause : Option Val :=
          match restAfter with
          | [e] => some e
          | _ => Option.none
        bindE (ev c env) (fun r =>
          if isFalseBool r.1 = false then ev th r.2
          else
            match elseClause with
            | some e => ev e r.2
            | Option.none => .ok (.none, r.2))
      | _ => .error (.fail "If requires at least condition and then clause")
    | .sym "define" =>
      match t with
      | [nexpr, vexpr] =>
        bindE (pyValueAttr nexpr) (fun name =>
          bindE (ev vexpr env) (fun r =>
            .ok (r.1, envSet r.2 (.name name) r.1)))
      | _ => .error (.fail "Define requires name and value")
    | .sym "begin" => evalBegin ev t env
    | .sym "quote" =>
      match t with
      | [e] => .ok (e, env)
      | _ => .error (.fail "Quote requires exactly one argument")
    | _ =>
      bindE (ev h env) (fun fr =>
        bindE (evalArgs ev t fr.2) (fun ar =>
          bindE (apply_fn ev fr.1 ar.1 ar.2) (fun v => .ok (v, ar.2))))
  | .lam _ _ => .ok (expr, env)
  | .none => .ok (expr, env)
  | .builtin _ => .ok (expr, env)

/-- Source eval_expr, made total by a fuel bound on the recursion depth;
each nesting level of the recursion uses one unit.  With enough fuel the
result is exactly that of the source evaluator. -/
def eval_expr : Nat → Val → Env → Except EvalErr (Val × Env)
  | 0 => fun _ _ => .error .outOfFuel
  | n + 1 => fun expr env => evalStep (eval_expr n) expr env

/-- Classification of one non-parenthesis token in source do_parse, in
source order: the integer form is tried first, then the float form, then
the recognized-string form, and otherwise the token is a Symbol node. -/
def atomOf (token : String) : Val :=
  if is_integer token then .int (pyIntVal token)
  else if is_float token then .float token
  else if is_string token then .strNode (stripQuotes token)
  else .sym token

/-- Source do_parse over the shared token iterator, made total by fuel
(one unit per recursive entry; the token-list length plus one always
suffices).  It returns the list built up to the matching closing
parenthesis together with the unconsumed tokens; running out of tokens
first is the missing-closing-parenthesis failure. -/
def do_parse : Nat → List String → Except EvalErr (List Val × List String)
  | 0, _ => .error .outOfFuel
  | _ + 1, [] => .error (.fail "Missing closing parenthesis")
  | fuel + 1, tok :: rest =>
    if tok = ")" then .ok ([], rest)
    else if tok = "(" then
      bindE (do_parse fuel rest) (fun inner =>
        bindE (do_parse fuel inner.2) (fun outer =>
          .ok (.list inner.1 :: outer.1, outer.2)))
    else
      bindE (do_parse fuel rest) (fun outer => .ok (atomOf tok :: outer.1, outer.2))

/-- Source parse: the token sequence must be nonempty and begin with an
opening parenthesis; the parsed top-level list is the expression (tokens
after its closing parenthesis are ignored, as in the source). -/
def parse (tokens : List String) : Except EvalErr Val :=
  match tokens with
  | [] => .error (.fail "Empty expression")
  | tok :: rest =>
    if tok ≠ "(" then .error (.fail ("Unexpected token " ++ tok))
    else bindE (do_parse (tokens.length + 1) rest) (fun p => .ok (.list p.1))

/-- Tokenize, parse and evaluate one program text against the base
environment, the pipeline of the source run paths. -/
def runProgram (fuel : Nat) (s : String) : Except EvalErr (Val × Env) :=
  bindE (parse (tokenize s)) (fun p => eval_expr fuel p base_environment)

/-- The resulting value of a program run, the part the source prints. -/
def runV (fuel : Nat) (s : String) : Except EvalErr Val :=
  bindE (runProgram fuel s) (fun r => .ok r.1)

/-- The environment a closure body runs in, as the specification describes
it: the calling environment extended, parameter name by argument value,
in order.  Used to state the copy-in property of closure application. -/
def bindArgs (env : Env) (names : List String) (args : List Val) : Env :=
  (names.zip args).foldl (fun e p => envSet e (.name p.1) p.2) env

/-- Overwriting a dict entry twice with the same key and value is the same
as doing it once. -/
theorem envSet_name_idem (env : Env) (s : String) (v : Val) :
    envSet (envSet env (.name s) v) (.name s) v = envSet env (.name s) v := by
  induction env with
  | nil => simp [envSet, keyMatch]
  | cons hd tl ih =>
    obtain ⟨k, w⟩ := hd
    by_cases h : keyMatch k (.name s) = true
    · simp [envSet, h]
    · simp [envSet, h, ih]

/-- The parameter-binding loop on an all-Symbol parameter list is exactly
the left fold that binds each name to its argument. -/
theorem bindParams_map_sym (names : List String) :
    ∀ (args : List Val) (env : Env),
      bindParams (names.map Val.sym) args env = .ok (bindArgs env names args) := by
  induction names with
  | nil =>
    intro args env
    cases args <;> simp [bindParams, bindArgs]
  | cons nm ns ih =>
    intro args env
    cases args with
    | nil => simp [bindParams, bindArgs]
    | cons a as => simpa [bindParams, bindArgs] using ih as (envSet env (.name nm) a)

/-- C5: quote returns its argument expression unevaluated and untouched by
the environment (the result and the environment are the same for every
environment, with no lookup possible since the result is the argument
itself); a quote form with any number of following elements other than one
is the source hard error; and quoting a three-symbol list yields the three
Symbol nodes themselves. -/
theorem quote_returns_argument_unevaluated :
    (∀ (n : Nat) (e : Val) (env : Env),
      eval_expr (n + 1) (.list [.sym "quote", e]) env = .ok (e, env))
    ∧ (∀ (n : Nat) (env : Env) (es : List Val), es.length ≠ 1 →
        eval_expr (n + 1) (.list (.sym "quote" :: es)) env =
          .error (.fail "Quote requires exactly one argument"))
    ∧ runV 30 "(quote (a b c))" = .ok (.list [.sym "a", .sym "b", .sym "c"]) := by
  refine ⟨fun n e env => rfl, fun n env es h => ?_, rfl⟩
  match es with
  | [] => rfl
  | [e] => exact absurd rfl h
  | e1 :: e2 :: rest => rfl

/-- Witness for the arity conjunct of the quote claim: a quote form with
no following element fails with the source message. -/
theorem quote_returns_argument_unevaluated_witness :
    eval_expr 1 (.list [.sym "quote"]) [] =
      .error (.fail "Quote requires exactly one argument") :=
  quote_returns_argument_unevaluated.2.1 0 [] [] (by decide)

/-- C6: applying a closure to a number of arguments different from its
parameter count fails with the source hard error naming the expected and
actual counts, whatever the parameters, body and environment are; in
particular the two-parameter lambda applied to one argument reports
expected 2, got 1. -/
theorem lambda_arity_mismatch_is_hard_error :
    (∀ (ev : Val → Env → Except EvalErr (Val × Env)) (ps : List Val) (body : Val)
        (args : List Val) (env : Env), args.length ≠ ps.length →
      apply_fn ev (.lam (.list ps) body) args env =
        .error (.fail ("Mismatched number of arguments to lambda: expected "
          ++ toString ps.length ++ ", got " ++ toString args.length)))
    ∧ runV 30 "((lambda (a b) a) 1)" =
        .error (.fail "Mismatched number of arguments to lambda: expected 2, got 1") := by
  refine ⟨fun ev ps body args env h => ?_, rfl⟩
  simp [apply_fn, h]

/-- Witness for the arity claim: a one-parameter closure applied to zero
arguments fails citing expected 1, got 0. -/
theorem lambda_arity_mismatch_is_hard_error_witness :
    apply_fn (eval_expr 1) (.lam (.list [.sym "a"]) (.sym "a")) [] [] =
      .error (.fail "Mismatched number of arguments to lambda: expected 1, got 0") :=
  lambda_arity_mismatch_is_hard_error.1 (eval_expr 1) [.sym "a"] (.sym "a") [] [] (by decide)

/-- C7: token classification tries the integer form before the float form,
so the token 3 (which both forms accept) becomes an Integer node while 3.0
becomes a Float node; and every token failing the integer, float and
recognized-string tests becomes a Symbol node. -/
theorem numeric_classification_integer_before_float :
    atomOf "3" = .int 3
    ∧ is_float "3" = true
    ∧ atomOf "3.0" = .float "3.0"
    ∧ is_integer "3.0" = false
    ∧ (∀ tok : String, is_integer tok = false → is_float tok = false →
        is_string tok = false → atomOf tok = .sym tok)
    ∧ parse (tokenize "(3 3.0 x)") = .ok (.list [.int 3, .float "3.0", .sym "x"]) := by
  refine ⟨rfl, rfl, rfl, rfl, fun tok h1 h2 h3 => ?_, rfl⟩
  simp [atomOf, h1, h2, h3]

/-- Witness for the Symbol-fallback conjunct: a token that is no integer,
float or string literal parses as a Symbol node. -/
theorem numeric_classification_integer_before_float_witness :
    atomOf "abc" = Val.sym "abc" :=
  numeric_classification_integer_before_float.2.2.2.2.1 "abc" (by decide) (by decide) (by decide)

/-- C10: numeric token classification follows the acceptance of the host
int() and float() conversions: an underscored integer literal becomes the
Integer node 10, and inf, nan and 1e3 become Float nodes rather than
Symbol nodes, both at the single-token level and through the parser. -/
theorem numeric_classification_follows_host_parsers :
    atomOf "1_0" = .int 10
    ∧ atomOf "inf" = .float "inf"
    ∧ atomOf "nan" = .float "nan"
    ∧ atomOf "1e3" = .float "1e3"
    ∧ parse (tokenize "(1_0 inf nan 1e3)") =
        .ok (.list [.int 10, .float "inf", .float "nan", .float "1e3"]) :=
  ⟨rfl, rfl, rfl, rfl, rfl⟩

/-- C9: an if form with two or more elements after the then clause ignores
all of them (no else clause is recorded, since only a length of exactly
four records one), so evaluation does not fail and a falsy condition
yields None without evaluating the element after the then clause. -/
theorem if_ignores_extra_elements :
    (∀ (n : Nat) (c t e1 e2 : Val) (rest : List Val) (env : Env),
      eval_expr (n + 1) (.list ([.sym "if", c, t, e1, e2] ++ rest)) env =
        bindE (eval_expr n c env) (fun r =>
          if isFalseBool r.1 = false then eval_expr n t r.2 else .ok (.none, r.2)))
    ∧ runV 30 "(if (< 2 1) 9 8 7)" = .ok Val.none
    ∧ runV 30 "(if 0 9 zzz www)" = .ok (.int 9)
    ∧ runV 30 "(if (< 2 1) 9 zzz www)" = .ok Val.none :=
  ⟨fun _ _ _ _ _ _ _ => rfl, rfl, rfl, rfl⟩

/-- C2: the truthiness test of if holds exactly of the Boolean false value
(0, the empty list and None are all truthy); a truthy condition selects the
then branch and a falsy one the else branch, the else branch defaulting to
None when absent; and only the selected branch is evaluated, so an unbound
symbol in the unselected branch raises no error.  The two equations hold
for every environment and expressions, with the unselected branch absent
from the right-hand side. -/
theorem if_truthiness_only_false_is_falsy :
    (∀ v : Val, isFalseBool v = true ↔ v = Val.bool false)
    ∧ (∀ (n : Nat) (c t e : Val) (env : Env),
        eval_expr (n + 1) (.list [.sym "if", c, t, e]) env =
          bindE (eval_expr n c env) (fun r =>
            if isFalseBool r.1 = false then eval_expr n t r.2 else eval_expr n e r.2))
    ∧ (∀ (n : Nat) (c t : Val) (env : Env),
        eval_expr (n + 1) (.list [.sym "if", c, t]) env =
          bindE (eval_expr n c env) (fun r =>
            if isFalseBool r.1 = false then eval_expr n t r.2 else .ok (.none, r.2)))
    ∧ runV 30 "(if 0 1 2)" = .ok (.int 1)
    ∧ runV 30 "(if () 1 2)" = .ok (.int 1)
    ∧ runV 30 "(if nil 1 2)" = .ok (.int 1)
    ∧ runV 30 "(if (< 2 1) 1 2)" = .ok (.int 2)
    ∧ runV 30 "(if (< 2 1) 1)" = .ok Val.none
    ∧ runV 30 "(if 0 1 undefinedvar)" = .ok (.int 1)
    ∧ runV 30 "(if (< 2 1) undefinedvar 2)" = .ok (.int 2) := by
  refine ⟨fun v => ?_, fun _ _ _ _ _ => rfl, fun _ _ _ _ => rfl,
    rfl, rfl, rfl, rfl, rfl, rfl, rfl⟩
  cases v with
  | bool b => cases b <;> simp [isFalseBool]
  | _ => simp [isFalseBool]

/-- C4: each of the five special-form keywords in head position is handled
as a special form for every environment, in particular in environments
where the keyword name itself is bound by a user define to an arbitrary
value; the bound value never flows through function-call resolution (the
right-hand sides make no use of it), and concrete programs that shadow if
and quote still get the special-form behaviour. -/
theorem special_forms_cannot_be_shadowed :
    (∀ (n : Nat) (env : Env) (v p b : Val),
      eval_expr (n + 1) (.list [.sym "lambda", p, b]) (envSet env (.name "lambda") v) =
        .ok (.lam p b, envSet env (.name "lambda") v))
    ∧ (∀ (n : Nat) (env : Env) (v e : Val),
        eval_expr (n + 1) (.list [.sym "quote", e]) (envSet env (.name "quote") v) =
          .ok (e, envSet env (.name "quote") v))
    ∧ (∀ (n : Nat) (env : Env) (v : Val) (nm : String) (k : Int),
        eval_expr (n + 2) (.list [.sym "define", .sym nm, .int k]) (envSet env (.name "define") v) =
          .ok (.int k, envSet (envSet env (.name "define") v) (.name nm) (.int k)))
    ∧ (∀ (n : Nat) (env : Env) (v : Val),
        eval_expr (n + 1) (.list [.sym "begin"]) (envSet env (.name "begin") v) =
          .ok (.none, envSet env (.name "begin") v))
    ∧ (∀ (n : Nat) (env : Env) (v t e : Val),
        eval_expr (n + 2) (.list [.sym "if", .int 0, t, e]) (envSet env (.name "if") v) =
          eval_expr (n + 1) t (envSet env (.name "if") v))
    ∧ runV 30 "(begin (define if 5) (if (< 2 1) 1 2))" = .ok (.int 2)
    ∧ runV 30 "(begin (define quote 5) (quote if))" = .ok (.sym "if") :=
  ⟨fun _ _ _ _ _ => rfl, fun _ _ _ _ => rfl, fun _ _ _ _ _ => rfl,
    fun _ _ _ => rfl, fun _ _ _ _ _ => rfl, rfl, rfl⟩

/-- C8: define evaluates the value expression in the current environment,
binds the name in that environment in place and returns the bound value
(the general equation); evaluating the same literal define twice leaves
the same single binding with no error; and the concrete program re-defining
x to 1 twice still reads back 1. -/
theorem define_binds_in_place_and_is_idempotent :
    (∀ (n : Nat) (nm : String) (ve : Val) (env : Env),
      eval_expr (n + 1) (.list [.sym "define", .sym nm, ve]) env =
        bindE (eval_expr n ve env) (fun r => .ok (r.1, envSet r.2 (.name nm) r.1)))
    ∧ (∀ (n : Nat) (nm : String) (k : Int) (env : Env),
        eval_expr (n + 3) (.list [.sym "begin",
            .list [.sym "define", .sym nm, .int k],
            .list [.sym "define", .sym nm, .int k]]) env =
          .ok (.int k, envSet env (.name nm) (.int k)))
    ∧ runV 30 "(begin (define x 1) (define x 1) x)" = .ok (.int 1) := by
  refine ⟨fun _ _ _ _ => rfl, fun n nm k env => ?_, rfl⟩
  have h : eval_expr (n + 3) (.list [.sym "begin",
      .list [.sym "define", .sym nm, .int k],
      .list [.sym "define", .sym nm, .int k]]) env =
    .ok (.int k, envSet (envSet env (.name nm) (.int k)) (.name nm) (.int k)) := rfl
  rw [h, envSet_name_idem]

/-- C1: closure application evaluates the body in a new environment that is
the calling environment extended with the parameter bindings (first
equation: same result for every calling environment, and the Lambda value
carries no environment of its own); only the value of the body is kept, and
at the call expression the resulting environment is the one from evaluating
the arguments, untouched by the body (second equation: the environment
produced by the body never appears in the result).  Concretely, a closure
body reads a binding local to its caller that was never in scope at its
definition, a define inside a body is invisible to the caller afterwards,
and a closure does not see bindings from its definition-time scope. -/
theorem closure_application_copies_caller_environment :
    (∀ (ev : Val → Env → Except EvalErr (Val × Env)) (names : List String) (body : Val)
        (args : List Val) (env : Env),
      apply_fn ev (.lam (.list (names.map Val.sym)) body) args env =
        if args.length = names.length then
          bindE (ev body (bindArgs env names args)) (fun r => .ok r.1)
        else .error (.fail ("Mismatched number of arguments to lambda: expected "
          ++ toString names.length ++ ", got " ++ toString args.length)))
    ∧ (∀ (n : Nat) (P B : Val) (aes : List Val) (env : Env),
        eval_expr (n + 2) (.list (.lam P B :: aes)) env =
          bindE (evalArgs (eval_expr (n + 1)) aes env) (fun ar =>
            bindE (apply_fn (eval_expr (n + 1)) (.lam P B) ar.1 ar.2)
              (fun v => .ok (v, ar.2))))
    ∧ runV 30 "(begin (define f (lambda () x)) (define g (lambda (x) (f))) (g 42))" =
        .ok (.int 42)
    ∧ runV 30 "(begin (define g (lambda () (define y 5))) (g) y)" =
        .error (.fail "Couldn't find symbol y")
    ∧ runV 30 "(begin (define mk (lambda (z) (lambda () z))) (define h (mk 7)) (h))" =
        .error (.fail "Couldn't find symbol z") := by
  refine ⟨fun ev names body args env => ?_, fun _ _ _ _ _ => rfl, rfl, rfl, rfl⟩
  simp only [apply_fn, List.length_map]
  by_cases h : args.length = names.length
  · simp [h, bindParams_map_sym, bindE]
  · simp [h]

/-- Pushing a character never yields the empty string. -/
theorem push_ne_empty (s : String) (c : Char) : s.push c ≠ "" := by
  intro h
  have h2 : (s.push c).data = ("" : String).data := congrArg String.data h
  have h3 : (s.push c).data = s.data ++ [c] := rfl
  rw [h3] at h2
  simp at h2

/-- The tokenizer step on a whitespace character outside a string: flush a
nonempty pending word, drop the character. -/
theorem tokenizeAux_ws_step (c : Char) (hws : c = '\t' ∨ c = '\n' ∨ c = ' ')
    (rest : List Char) (cw : String) :
    tokenizeAux (c :: rest) false cw =
      if cw ≠ "" then cw :: tokenizeAux rest false "" else tokenizeAux rest false cw := by
  rcases hws with h | h | h <;> subst h <;> rfl

/-- The tokenizer step on a parenthesis outside a string: flush a nonempty
pending word, then emit the parenthesis as its own token. -/
theorem tokenizeAux_paren_step (c : Char) (hp : c = '(' ∨ c = ')')
    (rest : List Char) (cw : String) :
    tokenizeAux (c :: rest) false cw =
      if cw ≠ "" then cw :: String.singleton c :: tokenizeAux rest false ""
      else String.singleton c :: tokenizeAux rest false "" := by
  rcases hp with h | h <;> subst h <;> rfl

/-- The tokenizer step on an ordinary character outside a string: extend
the pending word, and flush it when the lookahead sees whitespace or a
parenthesis next. -/
theorem tokenizeAux_ordinary_step (c : Char) (hq : c ≠ '\'')
    (h1 : c ≠ '\t') (h2 : c ≠ '\n') (h3 : c ≠ ' ') (h4 : c ≠ '(') (h5 : c ≠ ')')
    (rest : List Char) (cw : String) :
    tokenizeAux (c :: rest) false cw =
      if lookaheadFlush rest then (cw.push c) :: tokenizeAux rest false ""
      else tokenizeAux rest false (cw.push c) := by
  simp [tokenizeAux, hq, h1, h2, h3, h4, h5]

/-- Splitting the tokenizer at a boundary character: for a character that
the lookahead flushes at and whose own step flushes the pending word and
emits a fixed token list, tokenizing a quote-free prefix followed by the
boundary and a remainder is tokenizing both parts separately.  This is the
no-fusion property of the tokenizer at whitespace and parenthesis
boundaries. -/
theorem tokenizeAux_boundary_split (sep : Char) (sepEmit : List String)
    (hla : ∀ ts : List Char, lookaheadFlush (sep :: ts) = true)
    (hb : ∀ (cw : String) (ts : List Char), tokenizeAux (sep :: ts) false cw =
      (if cw ≠ "" then [cw] else []) ++ sepEmit ++ tokenizeAux ts false "") :
    ∀ cs : List Char, (∀ c ∈ cs, c ≠ '\'') → ∀ (cw : String) (ts : List Char),
      tokenizeAux (cs ++ sep :: ts) false cw =
        tokenizeAux cs false cw ++ sepEmit ++ tokenizeAux ts false "" := by
  intro cs
  induction cs with
  | nil =>
    intro _ cw ts
    rw [List.nil_append, hb]
    by_cases hcw : cw = ""
    · subst hcw; simp [tokenizeAux]
    · simp [tokenizeAux, hcw]
  | cons c cs2 ih =>
    intro hq cw ts
    have hc : c ≠ '\'' := hq c (by simp)
    have hq2 : ∀ x ∈ cs2, x ≠ '\'' := fun x hx => hq x (by simp [hx])
    rw [List.cons_append]
    by_cases hws : c = '\t' ∨ c = '\n' ∨ c = ' '
    · rw [tokenizeAux_ws_step c hws, tokenizeAux_ws_step c hws]
      by_cases hcw : cw = ""
      · subst hcw; simpa using ih hq2 "" ts
      · simpa [hcw] using ih hq2 "" ts
    · by_cases hp : c = '(' ∨ c = ')'
      · rw [tokenizeAux_paren_step c hp, tokenizeAux_paren_step c hp]
        by_cases hcw : cw = ""
        · subst hcw; simpa using ih hq2 "" ts
        · simpa [hcw] using ih hq2 "" ts
      · push_neg at hws hp
        obtain ⟨h1, h2, h3⟩ := hws
        obtain ⟨h4, h5⟩ := hp
        rw [tokenizeAux_ordinary_step c hc h1 h2 h3 h4 h5,
          tokenizeAux_ordinary_step c hc h1 h2 h3 h4 h5]
        cases cs2 with
        | nil =>
          rw [List.nil_append, hla, if_pos rfl, hb]
          simp [tokenizeAux, push_ne_empty]
        | cons d ds =>
          have heq : lookaheadFlush (d :: (ds ++ sep :: ts)) = lookaheadFlush (d :: ds) := rfl
          rw [List.cons_append, heq]
          by_cases hd : lookaheadFlush (d :: ds) = true
          · rw [if_pos hd, if_pos hd]
            simpa using ih hq2 "" ts
          · rw [if_neg hd, if_neg hd]
            exact ih hq2 (cw.push c) ts

/-- C3 counterexample: a bare word immediately followed by a string
literal fuses with it into one emitted token, because the lookahead set
has no quote character in it; the same two lexical tokens separated by a
space come out as two tokens.  So adjacent tokens can be silently fused,
refuting the claim for the input made of the word ab directly followed by
the string literal of c. -/
theorem tokenizer_fuses_word_with_following_string :
    tokenize "ab'c'" = ["ab'c'"] ∧ tokenize "ab 'c'" = ["ab", "'c'"] :=
  ⟨rfl, rfl⟩

/-- C3 amended: the lookahead flushes the pending word as soon as the next
character is whitespace or a parenthesis, so adjacent tokens meeting at a
whitespace or parenthesis boundary are never fused (tokenizing around such
a boundary is tokenizing the two sides separately, for any quote-free
prefix); but a word immediately followed by the opening quote of a string
literal is fused with it into one emitted token. -/
theorem tokenizer_flushes_at_whitespace_and_parens :
    (∀ s t : String, (∀ c ∈ s.data, c ≠ '\'') →
      tokenize (s ++ " " ++ t) = tokenize s ++ tokenize t
      ∧ tokenize (s ++ "(" ++ t) = tokenize s ++ "(" :: tokenize t
      ∧ tokenize (s ++ ")" ++ t) = tokenize s ++ ")" :: tokenize t)
    ∧ tokenize "ab'c'" = ["ab'c'"] := by
  have hdata : ∀ (s t : String) (c : Char), (s ++ String.singleton c ++ t).data =
      s.data ++ c :: t.data := by
    intro s t c
    simp [String.data_append, String.singleton]
  have hws : ∀ (sep : Char), sep = '\t' ∨ sep = '\n' ∨ sep = ' ' →
      ∀ (cw : String) (ts : List Char), tokenizeAux (sep :: ts) false cw =
        (if cw ≠ "" then [cw] else []) ++ ([] : List String) ++ tokenizeAux ts false "" := by
    intro sep h cw ts
    rw [tokenizeAux_ws_step sep h]
    by_cases hcw : cw = ""
    · subst hcw; simp
    · simp [hcw]
  have hpar : ∀ (p : Char), p = '(' ∨ p = ')' →
      ∀ (cw : String) (ts : List Char), tokenizeAux (p :: ts) false cw =
        (if cw ≠ "" then [cw] else []) ++ [String.singleton p] ++ tokenizeAux ts false "" := by
    intro p h cw ts
    rw [tokenizeAux_paren_step p h]
    by_cases hcw : cw = ""
    · subst hcw; simp
    · simp [hcw]
  refine ⟨fun s t hq => ⟨?_, ?_, ?_⟩, rfl⟩
  · have h := tokenizeAux_boundary_split ' ' [] (fun _ => rfl)
      (hws ' ' (by right; right; rfl)) s.data hq "" t.data
    have hd : (s ++ " " ++ t).data = s.data ++ ' ' :: t.data := hdata s t ' '
    simpa [tokenize, hd] using h
  · have h := tokenizeAux_boundary_split '(' ["("] (fun _ => rfl)
      (hpar '(' (by left; rfl)) s.data hq "" t.data
    have hd : (s ++ "(" ++ t).data = s.data ++ '(' :: t.data := hdata s t '('
    simpa [tokenize, hd] using h
  · have h := tokenizeAux_boundary_split ')' [")"] (fun _ => rfl)
      (hpar ')' (by right; rfl)) s.data hq "" t.data
    have hd : (s ++ ")" ++ t).data = s.data ++ ')' :: t.data := hdata s t ')'
    simpa [tokenize, hd] using h

/-- Witness for the amended tokenizer claim at concrete inputs: the word
ab, a space and the word cd tokenize as the two sides do separately. -/
theorem tokenizer_flushes_at_whitespace_and_parens_witness :
    tokenize ("ab" ++ " " ++ "cd") = tokenize "ab" ++ tokenize "cd" :=
  (tokenizer_flushes_at_whitespace_and_parens.1 "ab" "cd" (by decide)).1

end Lisp

